import Mathlib

/-!
Verification of the Aptos testnet faucet service
(`crates/aptos-faucet/src/main.rs` and, where the binary calls into the
`aptos_faucet` library whose sources are not part of this tree, a model of
that library built from the repository's specification).

Machine integers (`u64` sequence numbers, amounts) are modelled as `Nat`:
the faucet counts transactions it has itself submitted, which never comes
near `2^64`, and no wrapping arithmetic appears in the source.
Account addresses are 32-byte values, modelled as the `Nat` their 64
hex-digit representation denotes.
-/

/-- An on-chain account as reported by the remote node's account-lookup RPC:
balance and current sequence number. -/
structure AccountState where
  balance : Nat
  sequence_number : Nat
deriving DecidableEq, Repr

/-- The remote ledger's account table, an association list from address to
account state. -/
abbrev Ledger : Type := List (Nat × AccountState)

/-- Look an address up in the ledger (the account-lookup RPC). -/
def lookupAccount : Nat → Ledger → Option AccountState
  | _, [] => none
  | a, (b, st) :: rest => if b = a then some st else lookupAccount a rest

/-- `LocalAccount` as the faucet uses it: address, signing key (opaque), and
the local optimistic sequence counter. `LocalAccount::new(addr, key, 0)`
starts the counter at 0. -/
structure FaucetAccount where
  address : Nat
  key : Nat
  sequence_number : Nat
deriving DecidableEq, Repr

/-- Modelled from the spec: `aptos_faucet::Service` (library code not under
`src/`): endpoint URL, chain id, the faucet's `LocalAccount` behind the
exclusive lock, and the optional mint cap. -/
structure Service where
  endpoint : String
  chain_id : Nat
  faucet_account : FaucetAccount
  maximum_amount : Option Nat
deriving DecidableEq, Repr

/-- `Service::new(server_url, chain_id, faucet_account, maximum_amount)`. -/
def Service.new (endpoint : String) (chain_id : Nat) (fa : FaucetAccount)
    (ma : Option Nat) : Service :=
  ⟨endpoint, chain_id, fa, ma⟩

/-! ## Hex decoding and encoding -/

/-- Value of one hex digit (0-9, a-f, A-F). -/
def hexVal (c : Char) : Option Nat :=
  let n := c.toNat
  if 48 ≤ n ∧ n ≤ 57 then some (n - 48)
  else if 97 ≤ n ∧ n ≤ 102 then some (n - 87)
  else if 65 ≤ n ∧ n ≤ 70 then some (n - 55)
  else none

/-- Fold a list of hex digits into a number; fails on any non-hex char. -/
def decodeHexCore : List Char → Nat → Option Nat
  | [], acc => some acc
  | c :: cs, acc =>
    match hexVal c with
    | some v => decodeHexCore cs (acc * 16 + v)
    | none => none

/-- Drop an optional leading `0x` marker. -/
def strip0x : List Char → List Char
  | '0' :: 'x' :: rest => rest
  | cs => cs

/-- Modelled from the spec: parse a hex-encoded 32-byte account address
(with or without a leading `0x` marker); fails on malformed hex or wrong
length (`AddressResolver`, library code not under `src/`). -/
def decodeAddr (s : String) : Option Nat :=
  let cs := strip0x s.toList
  if cs.length = 64 then decodeHexCore cs 0 else none

/-- Upper-case hex digit for a value `< 16`. -/
def hexDigitCharU (n : Nat) : Char :=
  if n < 10 then Char.ofNat (48 + n) else Char.ofNat (55 + n)

/-- Lower-case hex digit for a value `< 16`. -/
def hexDigitCharL (n : Nat) : Char :=
  if n < 10 then Char.ofNat (48 + n) else Char.ofNat (87 + n)

/-- The 64-hex-digit rendering of an address, as the Rust
`AccountAddress` Display/Debug implementation prints it. -/
def hexOfAddr (a : Nat) : String :=
  String.mk ((List.range 64).map (fun i => hexDigitCharU (a / 16 ^ (63 - i) % 16)))

/-- `hex::encode` of a byte list (two lower-case digits per byte). -/
def hexEncode (bs : List Nat) : String :=
  String.mk (bs.foldr (fun b acc => hexDigitCharL (b / 16) :: hexDigitCharL (b % 16) :: acc) [])

/-! ## Transactions -/

/-- The two script-function payloads the faucet builds:
`AccountCreateAccount` and `TestCoinMint`. -/
inductive TxnPayload where
  | createAccount (authKey : Nat)
  | mint (dst : Nat) (amount : Nat)
deriving DecidableEq, Repr

/-- A signed transaction as far as the faucet's behaviour depends on it:
sender, consumed sequence number, payload. -/
structure SignedTxn where
  sender : Nat
  sequence_number : Nat
  payload : TxnPayload
deriving DecidableEq, Repr

/-- Big-endian fixed-width byte rendering of a number. -/
def natToBEBytes (k n : Nat) : List Nat :=
  (List.range k).map (fun i => n / 256 ^ (k - 1 - i) % 256)

/-- Little-endian fixed-width byte rendering of a number (BCS `u64`). -/
def natToLEBytes (k n : Nat) : List Nat :=
  (List.range k).map (fun i => n / 256 ^ i % 256)

/-- ULEB128 encoding of a length (BCS sequence-length marker). -/
def uleb128 (n : Nat) : List Nat :=
  if h : n < 128 then [n]
  else (n % 128 + 128) :: uleb128 (n / 128)
decreasing_by
  exact Nat.div_lt_self (Nat.lt_of_lt_of_le (by decide) (Nat.le_of_not_lt h)) (by decide)

/-- Modelled from the spec: the ledger's canonical binary (BCS) encoding of
one signed transaction (serialization code not under `src/`): sender
address bytes, little-endian sequence number, tagged payload. -/
def bcsSignedTxn (t : SignedTxn) : List Nat :=
  natToBEBytes 32 t.sender ++ natToLEBytes 8 t.sequence_number ++
    (match t.payload with
     | .createAccount a => 0 :: natToBEBytes 32 a
     | .mint d amt => 1 :: natToBEBytes 32 d ++ natToLEBytes 8 amt)

/-- BCS encoding of a `Vec<SignedTransaction>`: ULEB128 length then the
elements in order. -/
def bcsTxnList (ts : List SignedTxn) : List Nat :=
  uleb128 ts.length ++ (ts.map bcsSignedTxn).flatten

/-! ## Address resolution (spec §4.1) -/

/-- The query parameters of `POST /mint`. -/
structure MintParams where
  address : Option String
  pub_key : Option String
  auth_key : Option String
  amount : Nat
  return_txns : Bool
deriving DecidableEq, Repr

/-- The fixed guidance message of `AddressResolutionError`. -/
def guidance : String :=
  "You must provide 'address' (preferred), 'pub_key', or 'auth_key'"

/-- How many identity fields the request carries. -/
def presentFields (p : MintParams) : Nat :=
  (if p.address.isSome then 1 else 0) + (if p.pub_key.isSome then 1 else 0) +
    (if p.auth_key.isSome then 1 else 0)

/-- Modelled from the spec: `AddressResolver` (library code not under
`src/`). Exactly one identity field must be present; `address` is parsed as
a hex address literal, `pub_key` is decoded and run through the account
key-derivation scheme `derive`, `auth_key` is taken directly as the
address. Every failure collapses to `none`, surfaced as the fixed guidance
message. -/
def resolveAddress (derive : Nat → Nat) (p : MintParams) : Option Nat :=
  match p.address, p.pub_key, p.auth_key with
  | some s, none, none => decodeAddr s
  | none, some s, none => (decodeAddr s).map derive
  | none, none, some s => decodeAddr s
  | _, _, _ => none

/-! ## Transaction building and submission (spec §4.3, §4.4) -/

/-- Silent clamping of the requested amount to the configured cap. -/
def clampAmount (cap : Option Nat) (amount : Nat) : Nat :=
  match cap with
  | none => amount
  | some m => min amount m

/-- Modelled from the spec: `TransactionBuilder` (library code not under
`src/`). A fresh destination gets a create-account transaction at the
current sequence number then a mint at the next; an existing destination
gets only the mint. -/
def buildTxns (svc : Service) (dstExists : Bool) (dst amount : Nat) : List SignedTxn :=
  let s := svc.faucet_account.sequence_number
  let amt := clampAmount svc.maximum_amount amount
  if dstExists then
    [⟨svc.faucet_account.address, s, .mint dst amt⟩]
  else
    [⟨svc.faucet_account.address, s, .createAccount dst⟩,
     ⟨svc.faucet_account.address, s + 1, .mint dst amt⟩]

/-- Effect of an accepted transaction on the remote ledger:
create-account inserts an empty account, mint credits the destination. -/
def applyTxn (l : Ledger) (t : SignedTxn) : Ledger :=
  match t.payload with
  | .createAccount a =>
    match lookupAccount a l with
    | some _ => l
    | none => l ++ [(a, ⟨0, 0⟩)]
  | .mint d amt =>
    let rec credit : Ledger → Ledger
      | [] => [(d, ⟨amt, 0⟩)]
      | (b, st) :: rest =>
        if b = d then (b, ⟨st.balance + amt, st.sequence_number⟩) :: rest
        else (b, st) :: credit rest
    credit l

/-! ## The mint pipeline (spec §4, §6) -/

/-- The body of an HTTP response from the faucet: a plain-text message, the
JSON list of transaction hashes of the confirmed path, or the hex-encoded
BCS list of signed transactions of the `return_txns=true` path. -/
inductive RespBody where
  | text (s : String)
  | hashes (txns : List SignedTxn)
  | txnsHex (s : String)
deriving DecidableEq, Repr

/-- An HTTP response: status code and body. -/
structure HttpResponse where
  status : Nat
  body : RespBody
deriving DecidableEq, Repr

/-- Everything one `POST /mint` request produces: the response, the service
state after release of the lock, the remote ledger after submission, the
number of confirmation polls performed, and the transactions built and
submitted (in submission order). -/
structure MintResult where
  response : HttpResponse
  service : Service
  ledger : Ledger
  polls : Nat
  submitted : List SignedTxn
deriving DecidableEq, Repr

/-- Modelled from the spec: the full `/mint` pipeline (library code not
under `src/`), run under one exclusive-lock acquisition. `derive` is the
key-derivation scheme; `ok` says which submitted transactions the remote
node accepts. Resolution failure returns 400 with the fixed guidance;
an absent faucet account fails with the "faucet account ... not found"
message; otherwise the builder consumes sequence numbers (never rolled
back, whatever the submission outcome), the transactions are submitted,
and the response is hashes (confirmed, with polling) or the hex-encoded
BCS transaction list (`return_txns=true`, no polling). -/
def handleMint (derive : Nat → Nat) (ok : SignedTxn → Bool) (svc : Service)
    (l : Ledger) (p : MintParams) : MintResult :=
  match resolveAddress derive p with
  | none => ⟨⟨400, .text guidance⟩, svc, l, 0, []⟩
  | some dst =>
    match lookupAccount svc.faucet_account.address l with
    | none =>
      ⟨⟨500, .text ("faucet account " ++ hexOfAddr svc.faucet_account.address ++ " not found")⟩,
       svc, l, 0, []⟩
    | some _ =>
      let txns := buildTxns svc (lookupAccount dst l).isSome dst p.amount
      let svc' := { svc with faucet_account :=
        { svc.faucet_account with
          sequence_number := svc.faucet_account.sequence_number + txns.length } }
      let l' := (txns.filter ok).foldl applyTxn l
      let resp : HttpResponse :=
        if txns.all ok then
          if p.return_txns then ⟨200, .txnsHex (hexEncode (bcsTxnList txns))⟩
          else ⟨200, .hashes txns⟩
        else ⟨500, .text "SubmissionError"⟩
      let polls := if txns.all ok && !p.return_txns then txns.length else 0
      ⟨resp, svc', l', polls, txns⟩

/-- A serialized run of mint requests: the exclusive lock totally orders
concurrent requests, so any concurrent execution is some sequential order
of the requests; the list argument ranges over all such orders. Returns
the final service, final ledger, and all transactions in submission
order. -/
def processAll (derive : Nat → Nat) (ok : SignedTxn → Bool) :
    Service → Ledger → List MintParams → Service × Ledger × List SignedTxn
  | svc, l, [] => (svc, l, [])
  | svc, l, p :: ps =>
    let r := handleMint derive ok svc l p
    let rest := processAll derive ok r.service r.ledger ps
    (rest.1, rest.2.1, r.submitted ++ rest.2.2)

/-- `GET /health`: the serving account's current local sequence number as a
plain integer, status 200. -/
def handleHealth (svc : Service) : HttpResponse :=
  ⟨200, .text (Nat.repr svc.faucet_account.sequence_number)⟩

/-! ## `main.rs` startup wiring (code under `src/`) -/

/-- The command-line arguments of the faucet binary (`struct Args`). -/
structure Args where
  address : String
  port : Nat
  server_url : String
  mint_key_file_path : String
  mint_key : Option Nat
  mint_account_address : Option Nat
  chain_id : Nat
  maximum_amount : Option Nat
  do_not_delegate : Bool
deriving DecidableEq, Repr

/-- `aptos_root_address()`: the fixed well-known root address `0xa550c18`. -/
def aptos_root_address : Nat := 0xa550c18

/-- `main.rs` line 82-83:
`args.mint_account_address.unwrap_or_else(aptos_root_address)`. -/
def mainFaucetAddress (args : Args) : Nat :=
  args.mint_account_address.getD aptos_root_address

/-- `main.rs` lines 88-92: the cap handed to the root `Service` — the
configured cap only under `do_not_delegate`, otherwise `None`. -/
def mainRootMaximumAmount (args : Args) : Option Nat :=
  if args.do_not_delegate then args.maximum_amount else none

/-- `main.rs` lines 84-99: the root `Service`, built over
`LocalAccount::new(faucet_address, key, 0)`. -/
def mainRootService (args : Args) (key : Nat) : Service :=
  Service.new args.server_url args.chain_id
    ⟨mainFaucetAddress args, key, 0⟩ (mainRootMaximumAmount args)

/-- Modelled from the spec: `aptos_faucet::delegate_mint_account` (library
code not under `src/`): generate a fresh delegate key and address, fund it
through the root service, and return a new independent `Service` for the
delegate with the given `maximum_amount` as its own cap. -/
def delegate_mint_account (service : Service) (server_url : String)
    (chain_id : Nat) (maximum_amount : Option Nat) (dKey dAddr : Nat) : Service :=
  let _root := service
  Service.new server_url chain_id ⟨dAddr, dKey, 0⟩ maximum_amount

/-- `main.rs` lines 101-111: the service actually bound to the public
listener — the root itself under `do_not_delegate`, otherwise the
delegated service built with `args.maximum_amount`. -/
def mainActualService (args : Args) (key dKey dAddr : Nat) : Service :=
  if args.do_not_delegate then mainRootService args key
  else
    delegate_mint_account (mainRootService args key) args.server_url
      args.chain_id args.maximum_amount dKey dAddr

/-! ## Concrete instances (mirroring the values the test module uses) -/

/-- The identity key-derivation scheme, used to instantiate the abstract
scheme on concrete runs. -/
def idDerive : Nat → Nat := fun a => a

/-- A remote node that accepts every submitted transaction. -/
def okAll : SignedTxn → Bool := fun _ => true

/-- The 64-hex-digit identity string the tests use. -/
def exHex : String := "459c77a38803bd53f3adee52703810e3a74fd7c46952c497e75afb0a7932586d"

/-- The address `exHex` denotes. -/
def exAddr : Nat := 0x459c77a38803bd53f3adee52703810e3a74fd7c46952c497e75afb0a7932586d

/-- A faucet account address (the derived address the tests compute). -/
def faAddr : Nat := 0x9ff98e82355eb13098f3b1157ac018a725c62c0e0820f422000814cdba407835

/-- A concrete service over a fresh faucet account, no cap. -/
def svcEx : Service := Service.new "http://localhost:80/" 4 ⟨faAddr, 7, 0⟩ none

/-- A ledger holding only the faucet's own account. -/
def ledgerEx : Ledger := [(faAddr, ⟨0, 0⟩)]

/-- `POST /mint?address=exHex&amount=13345`. -/
def pAddrEx : MintParams := ⟨some exHex, none, none, 13345, false⟩

/-- `POST /mint?auth_key=exHex&amount=13345`. -/
def pAuthEx : MintParams := ⟨none, none, some exHex, 13345, false⟩

/-- `POST /mint?auth_key=exHex&amount=13345&return_txns=true`. -/
def pTxnsEx : MintParams := ⟨none, none, some exHex, 13345, true⟩

/-- `POST /mint?auth_key=not-hex&amount=1000000`. -/
def pBadEx : MintParams := ⟨none, none, some "not-hex", 1000000, false⟩

/-- Example command-line arguments: the defaults, a cap of 100, delegation
enabled, no explicit mint account address. -/
def argsEx : Args :=
  ⟨"127.0.0.1", 80, "https://testnet.aptoslabs.com/", "/opt/aptos/etc/mint.key",
   none, none, 2, some 100, false⟩

/-! ## Helper lemmas -/

lemma buildTxns_map_seq (svc : Service) (e : Bool) (dst amount : Nat) :
    (buildTxns svc e dst amount).map (fun t => t.sequence_number) =
      List.range' svc.faucet_account.sequence_number
        (buildTxns svc e dst amount).length := by
  cases e <;> simp [buildTxns, List.range']

lemma handleMint_seq (d : Nat → Nat) (ok : SignedTxn → Bool) (svc : Service)
    (l : Ledger) (p : MintParams) :
    (handleMint d ok svc l p).submitted.map (fun t => t.sequence_number) =
      List.range' svc.faucet_account.sequence_number
        (handleMint d ok svc l p).submitted.length ∧
    (handleMint d ok svc l p).service.faucet_account.sequence_number =
      svc.faucet_account.sequence_number +
        (handleMint d ok svc l p).submitted.length := by
  unfold handleMint
  cases hr : resolveAddress d p with
  | none => simp
  | some dst =>
    cases hf : lookupAccount svc.faucet_account.address l with
    | none => simp
    | some st =>
      exact ⟨buildTxns_map_seq svc (lookupAccount dst l).isSome dst p.amount, rfl⟩

lemma processAll_seq (d : Nat → Nat) (ok : SignedTxn → Bool) (ps : List MintParams) :
    ∀ svc l,
      (processAll d ok svc l ps).2.2.map (fun t => t.sequence_number) =
        List.range' svc.faucet_account.sequence_number
          (processAll d ok svc l ps).2.2.length ∧
      (processAll d ok svc l ps).1.faucet_account.sequence_number =
        svc.faucet_account.sequence_number + (processAll d ok svc l ps).2.2.length := by
  induction ps with
  | nil => intro svc l; simp [processAll]
  | cons p ps ih =>
    intro svc l
    have h1 := handleMint_seq d ok svc l p
    have h2 := ih (handleMint d ok svc l p).service (handleMint d ok svc l p).ledger
    simp only [processAll, List.map_append, List.length_append]
    constructor
    · rw [h1.1, h2.1, h1.2, List.range'_append_1, Nat.add_comm]
    · rw [h2.2, h1.2, Nat.add_assoc]

/-- C1: the exclusive lock totally orders concurrent mint requests, so any
concurrent handling of N requests is some sequential order of them; for
every such order starting from local counter s, the sequence numbers
consumed across all built transactions are exactly the contiguous block
{s, s+1, …, s+N'-1} — no duplicates, no gaps — where N' is the total
number of transactions built across all requests. -/
theorem mint_sequence_numbers_contiguous (d : Nat → Nat) (ok : SignedTxn → Bool)
    (svc : Service) (l : Ledger) (ps : List MintParams) :
    (processAll d ok svc l ps).2.2.map (fun t => t.sequence_number) =
      List.range' svc.faucet_account.sequence_number
        (processAll d ok svc l ps).2.2.length ∧
    ((processAll d ok svc l ps).2.2.map (fun t => t.sequence_number)).Nodup := by
  refine ⟨(processAll_seq d ok ps svc l).1, ?_⟩
  rw [(processAll_seq d ok ps svc l).1]
  exact List.nodup_range' _ _

/-- C6: every transaction build advances the local sequence counter by
exactly one per built transaction before the lock is released; the
post-request service state is identical whatever the submission outcomes
(no rollback on submission failure), and any later operation consumes only
sequence numbers strictly after the already-consumed block, so a consumed
number is never re-issued. -/
theorem sequence_counter_never_rolled_back (d : Nat → Nat)
    (ok ok2 : SignedTxn → Bool) (svc : Service) (l l2 : Ledger)
    (p q : MintParams) :
    (handleMint d ok svc l p).service = (handleMint d ok2 svc l p).service ∧
    (handleMint d ok svc l p).service.faucet_account.sequence_number =
      svc.faucet_account.sequence_number +
        (handleMint d ok svc l p).submitted.length ∧
    (handleMint d ok svc l p).submitted.map (fun t => t.sequence_number) =
      List.range' svc.faucet_account.sequence_number
        (handleMint d ok svc l p).submitted.length ∧
    (handleMint d ok2 (handleMint d ok svc l p).service l2 q).submitted.map
        (fun t => t.sequence_number) =
      List.range'
        (svc.faucet_account.sequence_number +
          (handleMint d ok svc l p).submitted.length)
        (handleMint d ok2 (handleMint d ok svc l p).service l2 q).submitted.length := by
  have h := handleMint_seq d ok svc l p
  have h4 := handleMint_seq d ok2 (handleMint d ok svc l p).service l2 q
  refine ⟨?_, h.2, h.1, ?_⟩
  · unfold handleMint
    cases hr : resolveAddress d p with
    | none => rfl
    | some dst =>
      cases hf : lookupAccount svc.faucet_account.address l with
      | none => rfl
      | some st => rfl
  · rw [h4.1, h.2]

lemma presentFields_ne_one_resolve_none (derive : Nat → Nat) (p : MintParams)
    (h : presentFields p ≠ 1) : resolveAddress derive p = none := by
  rcases p with ⟨pa, pk, pak, amt, rt⟩
  cases pa <;> cases pk <;> cases pak <;>
    simp_all [presentFields, resolveAddress]

/-- C2: `main` builds the root `Service` with no mint cap whenever
delegation is enabled (the cap is `None` unless `do_not_delegate`), the
configured `maximum_amount` is the cap of whichever service ends up bound
to the public listener, and under delegation that exposed service is the
delegated one built from the configured cap — so the cap is enforced only
on the directly-exposed faucet instance. -/
theorem cap_enforced_only_on_exposed_service (args : Args) (key dKey dAddr : Nat) :
    (mainRootService args key).maximum_amount =
      (if args.do_not_delegate then args.maximum_amount else none) ∧
    (mainActualService args key dKey dAddr).maximum_amount = args.maximum_amount ∧
    mainActualService args key dKey dAddr =
      (if args.do_not_delegate then mainRootService args key
       else delegate_mint_account (mainRootService args key) args.server_url
              args.chain_id args.maximum_amount dKey dAddr) := by
  refine ⟨rfl, ?_, rfl⟩
  unfold mainActualService
  by_cases h : args.do_not_delegate <;>
    simp [h, mainRootService, mainRootMaximumAmount, Service.new, delegate_mint_account]

/-- C10: when `--mint-account-address` is absent, `main` falls back to the
fixed well-known root address `aptos_root_address()`, not to any address
derived from the supplied mint key (contrary to the argument's help
text). -/
theorem default_mint_account_address_is_root (args : Args) (keyAddr : Nat) :
    (args.mint_account_address = none →
      mainFaucetAddress args = aptos_root_address) ∧
    (args.mint_account_address = none → keyAddr ≠ aptos_root_address →
      mainFaucetAddress args ≠ keyAddr) := by
  constructor
  · intro h
    simp [mainFaucetAddress, h]
  · intro h hne
    simp only [mainFaucetAddress, h, Option.getD_none]
    exact fun hc => hne hc.symm

/-- Witness for C10 at the example arguments (no mint account address
supplied, a key whose derived address is 1). -/
theorem default_mint_account_address_is_root_witness :
    mainFaucetAddress argsEx = aptos_root_address ∧ mainFaucetAddress argsEx ≠ 1 :=
  ⟨(default_mint_account_address_is_root argsEx 1).1 rfl,
   (default_mint_account_address_is_root argsEx 1).2 rfl (by decide)⟩

/-- C8: `GET /health` answers 200 with the serving account's current local
sequence number rendered as a plain integer; on the service `main` builds
(sequence number 0, zero prior mints) the body is exactly "0". -/
theorem health_returns_sequence_number (svc : Service) (args : Args) (key : Nat) :
    handleHealth svc =
      ⟨200, .text (Nat.repr svc.faucet_account.sequence_number)⟩ ∧
    handleHealth (mainRootService args key) = ⟨200, .text "0"⟩ := by
  refine ⟨rfl, ?_⟩
  simp only [handleHealth, mainRootService, Service.new]
  rfl

/-- C3: an `address` input is parsed directly as the 32-byte address, a
`pub_key` input is decoded and pushed through the account key-derivation
scheme, an `auth_key` input is taken directly as the 32-byte address; and
whenever two identity forms resolve to the same underlying address (and
ask for the same amount), the mint pipeline leaves an identical ledger and
an identical post-mint balance at that address. -/
theorem identity_forms_agree (derive : Nat → Nat) (ok : SignedTxn → Bool)
    (svc : Service) (l : Ledger) (p q : MintParams) (a : Nat)
    (s : String) (amt : Nat) (rt : Bool) :
    resolveAddress derive ⟨some s, none, none, amt, rt⟩ = decodeAddr s ∧
    resolveAddress derive ⟨none, some s, none, amt, rt⟩ =
      (decodeAddr s).map derive ∧
    resolveAddress derive ⟨none, none, some s, amt, rt⟩ = decodeAddr s ∧
    (resolveAddress derive p = some a → resolveAddress derive q = some a →
      p.amount = q.amount →
      (handleMint derive ok svc l p).ledger = (handleMint derive ok svc l q).ledger ∧
      lookupAccount a (handleMint derive ok svc l p).ledger =
        lookupAccount a (handleMint derive ok svc l q).ledger) := by
  refine ⟨rfl, rfl, rfl, fun hp hq hamt => ?_⟩
  have hld : (handleMint derive ok svc l p).ledger =
      (handleMint derive ok svc l q).ledger := by
    simp only [handleMint, hp, hq, hamt]
    cases lookupAccount svc.faucet_account.address l <;> rfl
  exact ⟨hld, by rw [hld]⟩

/-- Witness for C3: the `address` form and the `auth_key` form of the same
64-hex-digit identity leave identical ledgers and an identical balance at
the resolved address. -/
theorem identity_forms_agree_witness :
    (handleMint idDerive okAll svcEx ledgerEx pAddrEx).ledger =
      (handleMint idDerive okAll svcEx ledgerEx pAuthEx).ledger ∧
    lookupAccount exAddr (handleMint idDerive okAll svcEx ledgerEx pAddrEx).ledger =
      lookupAccount exAddr (handleMint idDerive okAll svcEx ledgerEx pAuthEx).ledger :=
  (identity_forms_agree idDerive okAll svcEx ledgerEx pAddrEx pAuthEx exAddr
    exHex 13345 false).2.2.2 (by decide) (by decide) rfl

/-- C4: whenever the identity fields do not select exactly one valid
identity — zero fields, more than one field, or an undecodable value — the
request fails with HTTP 400 and the body is exactly the fixed guidance
string, and neither the service state nor the ledger changes. -/
theorem invalid_identity_guidance (derive : Nat → Nat) (ok : SignedTxn → Bool)
    (svc : Service) (l : Ledger) (p : MintParams)
    (h : presentFields p ≠ 1 ∨ resolveAddress derive p = none) :
    (handleMint derive ok svc l p).response = ⟨400, .text guidance⟩ ∧
    (handleMint derive ok svc l p).service = svc ∧
    (handleMint derive ok svc l p).ledger = l ∧
    (handleMint derive ok svc l p).submitted = [] := by
  have hr : resolveAddress derive p = none := by
    cases h with
    | inl h => exact presentFields_ne_one_resolve_none derive p h
    | inr h => exact h
  simp [handleMint, hr]

/-- Witness for C4 at `POST /mint?auth_key=not-hex&amount=1000000`. -/
theorem invalid_identity_guidance_witness :
    (handleMint idDerive okAll svcEx ledgerEx pBadEx).response =
      ⟨400, .text guidance⟩ ∧
    (handleMint idDerive okAll svcEx ledgerEx pBadEx).service = svcEx ∧
    (handleMint idDerive okAll svcEx ledgerEx pBadEx).ledger = ledgerEx ∧
    (handleMint idDerive okAll svcEx ledgerEx pBadEx).submitted = [] :=
  invalid_identity_guidance idDerive okAll svcEx ledgerEx pBadEx (Or.inr (by decide))

/-- C5: minting to a destination absent from the ledger builds and submits
exactly two transactions, a create-account at the current sequence number
followed by a mint at the next, in that order; minting to an existing
destination builds and submits exactly the one mint transaction. -/
theorem fresh_dst_two_txns_existing_one (derive : Nat → Nat)
    (ok : SignedTxn → Bool) (svc : Service) (l : Ledger) (p : MintParams)
    (a : Nat) (st : AccountState)
    (hr : resolveAddress derive p = some a)
    (hf : lookupAccount svc.faucet_account.address l = some st) :
    (lookupAccount a l = none →
      (handleMint derive ok svc l p).submitted =
        [⟨svc.faucet_account.address, svc.faucet_account.sequence_number,
          .createAccount a⟩,
         ⟨svc.faucet_account.address, svc.faucet_account.sequence_number + 1,
          .mint a (clampAmount svc.maximum_amount p.amount)⟩]) ∧
    (∀ st2, lookupAccount a l = some st2 →
      (handleMint derive ok svc l p).submitted =
        [⟨svc.faucet_account.address, svc.faucet_account.sequence_number,
          .mint a (clampAmount svc.maximum_amount p.amount)⟩]) := by
  constructor
  · intro hd
    simp [handleMint, hr, hf, hd, buildTxns]
  · intro st2 hd
    simp [handleMint, hr, hf, hd, buildTxns]

/-- Witness for C5: minting to the fresh example address builds the
create-account transaction at sequence number 0 then the mint at 1. -/
theorem fresh_dst_two_txns_existing_one_witness :
    (handleMint idDerive okAll svcEx ledgerEx pAddrEx).submitted =
      [⟨svcEx.faucet_account.address, svcEx.faucet_account.sequence_number,
        .createAccount exAddr⟩,
       ⟨svcEx.faucet_account.address, svcEx.faucet_account.sequence_number + 1,
        .mint exAddr (clampAmount svcEx.maximum_amount pAddrEx.amount)⟩] :=
  (fresh_dst_two_txns_existing_one idDerive okAll svcEx ledgerEx pAddrEx exAddr
    ⟨0, 0⟩ (by decide) (by decide)).1 (by decide)

/-- C7: with `return_txns=true` (all submissions accepted), the 200
response body is the hex-encoded BCS serialization of exactly the list of
signed transactions that were submitted — two for a fresh destination —
no confirmation polling occurs, and the transactions are nevertheless
submitted (the ledger is the result of applying them) before the
response. -/
theorem return_txns_unconfirmed (derive : Nat → Nat) (svc : Service)
    (l : Ledger) (p : MintParams) (a : Nat) (st : AccountState)
    (hrt : p.return_txns = true)
    (hr : resolveAddress derive p = some a)
    (hf : lookupAccount svc.faucet_account.address l = some st)
    (hd : lookupAccount a l = none) :
    (handleMint derive okAll svc l p).response =
      ⟨200, .txnsHex (hexEncode (bcsTxnList
        (handleMint derive okAll svc l p).submitted))⟩ ∧
    (handleMint derive okAll svc l p).submitted.length = 2 ∧
    (handleMint derive okAll svc l p).polls = 0 ∧
    (handleMint derive okAll svc l p).ledger =
      (handleMint derive okAll svc l p).submitted.foldl applyTxn l := by
  simp [handleMint, hr, hf, hd, hrt, okAll, buildTxns]

/-- Witness for C7 at `POST /mint?auth_key=…&amount=13345&return_txns=true`
against a fresh destination. -/
theorem return_txns_unconfirmed_witness :
    (handleMint idDerive okAll svcEx ledgerEx pTxnsEx).response =
      ⟨200, .txnsHex (hexEncode (bcsTxnList
        (handleMint idDerive okAll svcEx ledgerEx pTxnsEx).submitted))⟩ ∧
    (handleMint idDerive okAll svcEx ledgerEx pTxnsEx).submitted.length = 2 ∧
    (handleMint idDerive okAll svcEx ledgerEx pTxnsEx).polls = 0 ∧
    (handleMint idDerive okAll svcEx ledgerEx pTxnsEx).ledger =
      (handleMint idDerive okAll svcEx ledgerEx pTxnsEx).submitted.foldl
        applyTxn ledgerEx :=
  return_txns_unconfirmed idDerive svcEx ledgerEx pTxnsEx exAddr ⟨0, 0⟩
    rfl (by decide) (by decide) (by decide)

/-- C9: while the faucet's own signing account is absent from the remote
ledger, every well-formed mint request fails — non-200, body
"faucet account <address> not found" naming the faucet's address — and
nothing changes: the condition is not auto-recovered. -/
theorem faucet_account_not_found (derive : Nat → Nat) (ok : SignedTxn → Bool)
    (svc : Service) (l : Ledger) (p : MintParams) (a : Nat)
    (hr : resolveAddress derive p = some a)
    (hf : lookupAccount svc.faucet_account.address l = none) :
    (handleMint derive ok svc l p).response =
      ⟨500, .text ("faucet account " ++ hexOfAddr svc.faucet_account.address ++
        " not found")⟩ ∧
    (handleMint derive ok svc l p).response.status ≠ 200 ∧
    (handleMint derive ok svc l p).service = svc ∧
    (handleMint derive ok svc l p).ledger = l ∧
    (handleMint derive ok svc l p).submitted = [] := by
  simp [handleMint, hr, hf]

/-- Witness for C9: the faucet's account removed from the ledger (empty
ledger), a well-formed mint request. -/
theorem faucet_account_not_found_witness :
    (handleMint idDerive okAll svcEx [] pAddrEx).response =
      ⟨500, .text ("faucet account " ++ hexOfAddr svcEx.faucet_account.address ++
        " not found")⟩ ∧
    (handleMint idDerive okAll svcEx [] pAddrEx).response.status ≠ 200 ∧
    (handleMint idDerive okAll svcEx [] pAddrEx).service = svcEx ∧
    (handleMint idDerive okAll svcEx [] pAddrEx).ledger = [] ∧
    (handleMint idDerive okAll svcEx [] pAddrEx).submitted = [] :=
  faucet_account_not_found idDerive okAll svcEx [] pAddrEx exAddr
    (by decide) (by decide)
